import Mathlib

/-!
Verification of the trading decision engine in `solana_bot.py`.

The Python source is shallowly embedded below.  Numeric values (prices,
volumes, amounts) are modelled as exact rationals `ℚ`; external effects
(the DexScreener fetch, the Solsniffer oracle call, the Telegram send and
the SQLite inserts) are modelled by passing their outcomes in explicitly
(`Option` responses, `sendOk` / `dbOk` booleans).  A raised-and-caught
Python exception is modelled as an explicit error value (`Except.error` or
a `raised` flag).  Definitions follow the source line by line; each doc
comment cites the lines of `solana_bot.py` it embeds.
-/

/-- The `solsniffer_status` string stored on a token: `'Good'`, `'Bad'`
or `'Unknown'` (`check_solsniffer`, lines 108 and 113). -/
inductive SnifferStatus where
  | Good
  | Bad
  | Unknown
deriving DecidableEq, Repr

/-- A successfully parsed Solsniffer JSON body: the fields read at
lines 104-107 of `check_solsniffer`. -/
structure SnifferResp where
  score : ℤ
  fake_volume : Bool
  rugger : Bool
  cabal : Bool
deriving DecidableEq, Repr

/-- A token dict as built by `fetch_tokens_dexscreener` (lines 84-90):
only these five fields are extracted from the API response. -/
structure Token where
  token_address : String
  symbol : String
  price_usd : ℚ
  volume_24h : ℚ
  liquidity_usd : ℚ
deriving DecidableEq, Repr

/-- One raw pair object of the DexScreener response (spec section 6):
`baseToken.{address,symbol}`, `priceUsd`, `volume.h24`, `liquidity.usd`,
`priceChange.h1`, `createdAt` (epoch seconds).  The last two fields are
present on the wire but are never read by the source (lines 84-90). -/
structure RawPair where
  address : String
  symbol : String
  priceUsd : ℚ
  volume_h24 : ℚ
  liquidity_usd : ℚ
  priceChange_h1 : ℚ
  createdAt : ℤ
deriving DecidableEq, Repr

/-- A row of the `trades` table (schema at lines 69-71; the
auto-incremented `trade_id` is left implicit as the list position). -/
structure Trade where
  token_address : String
  trade_type : String
  amount : ℚ
  price : ℚ
  timestamp : ℕ
deriving DecidableEq, Repr

/-- A command message submitted to the Telegram channel by
`execute_trade` (line 155): the trade it asks the external agent to
perform.  Recorded whether or not the underlying send succeeded, since
the send is always attempted. -/
structure Dispatch where
  token_address : String
  trade_type : String
  amount : ℚ
deriving DecidableEq, Repr

/-- The `config['filters']` sub-dict (lines 39-42). -/
structure Filters where
  min_volume_24h : ℚ
  min_liquidity_usd : ℚ
  min_price_usd : ℚ
  max_price_change_1h : ℚ
deriving DecidableEq, Repr

/-- The configuration fields consulted by `apply_filters` (lines 119-123). -/
structure Config where
  coin_blacklist : List String
  filters : Filters
deriving DecidableEq, Repr

/-- `fetch_tokens_dexscreener` (lines 75-95): parses each pair of the
response into a token dict, keeping only address, symbol, price, volume
and liquidity (`createdAt` and `priceChange.h1` are dropped); on any
transport or HTTP error (`resp = none`) it returns the empty list. -/
def parsePair (p : RawPair) : Token :=
  { token_address := p.address
    symbol := p.symbol
    price_usd := p.priceUsd
    volume_24h := p.volume_h24
    liquidity_usd := p.liquidity_usd }

/-- The whole fetch: `none` models a request that raised (caught at
line 93, returning `[]`). -/
def fetch_tokens_dexscreener (resp : Option (List RawPair)) : List Token :=
  match resp with
  | none => []
  | some pairs => pairs.map parsePair

/-- `check_solsniffer` (lines 97-113).  A `none` argument models any
transport or parse failure: the `except` at line 111 catches it and the
function returns `(0, 'Unknown')` instead of raising to its caller.
On a parsed body, status is `'Good'` iff `score >= 85` and none of the
three red flags is set, else `'Bad'` (line 108). -/
def check_solsniffer (resp : Option SnifferResp) : ℤ × SnifferStatus :=
  match resp with
  | none => (0, SnifferStatus.Unknown)
  | some data =>
    let score := data.score
    let status :=
      if score ≥ 85 ∧ (data.fake_volume || data.rugger || data.cabal) = false
      then SnifferStatus.Good else SnifferStatus.Bad
    (score, status)

/-- `apply_filters` (lines 115-126): keeps, in input order, every token
whose symbol is not blacklisted, whose volume, liquidity and price meet
the minimums, and whose price is at most `max_price_change_1h` (the
config field reused as an absolute upper price bound at line 123). -/
def apply_filters (tokens : List Token) (config : Config) : List Token :=
  tokens.filter fun token =>
    decide (token.symbol ∉ config.coin_blacklist) &&
    decide (token.volume_24h ≥ config.filters.min_volume_24h) &&
    decide (token.liquidity_usd ≥ config.filters.min_liquidity_usd) &&
    decide (token.price_usd ≥ config.filters.min_price_usd) &&
    decide (token.price_usd ≤ config.filters.max_price_change_1h)

/-- `send_telegram_notification` (lines 143-150).  The argument is
whether the underlying Telegram send succeeded.  The body wraps the send
in `try/except Exception` and only logs on failure (lines 149-150), so
the coroutine returns normally in both cases: it never raises to
`execute_trade`. -/
def send_telegram_notification (sendOk : Bool) : Bool :=
  sendOk

/-- `execute_trade` (lines 152-168): formats the command, awaits the
send (whose failures are swallowed inside `send_telegram_notification`),
then inserts a row into `trades` with `price = 0` (line 163).  `dbOk`
models whether the SQLite insert succeeded; if it raised, the `except`
at line 167 catches it, so `execute_trade` itself never raises.  Returns
the new trade log and the list of commands submitted to the channel. -/
def execute_trade (trades : List Trade) (token_address trade_type : String)
    (amount : ℚ) (sendOk dbOk : Bool) (now : ℕ) : List Trade × List Dispatch :=
  let _sent := send_telegram_notification sendOk
  let dispatches : List Dispatch := [⟨token_address, trade_type, amount⟩]
  if dbOk then
    (trades ++ [⟨token_address, trade_type, amount, 0, now⟩], dispatches)
  else
    (trades, dispatches)

/-- The SQL query at line 189: `SELECT price FROM trades WHERE
token_address=? AND trade_type='buy' ORDER BY timestamp DESC LIMIT 1`.
Within one run all timestamps are non-decreasing in insertion order, so
descending order is modelled by reversing the log; `LIMIT 1` keeps at
most one row.  Only the emptiness of the result matters to any theorem
below, so the tie-break choice among equal timestamps is immaterial. -/
def queryLatestBuy (trades : List Trade) (addr : String) : List Trade :=
  ((trades.filter fun t =>
      t.token_address == addr && t.trade_type == "buy").reverse).take 1

/-- Line 191: `buy_price = c.fetchone()[0] if c.fetchone() else
token['price_usd']`.  Python evaluates the condition first, so the first
`fetchone` consumes the cursor's single row; if a row existed, the body
then calls `fetchone` again on the exhausted cursor, gets `None`, and
`None[0]` raises `TypeError` (modelled as `Except.error ()`).  Only when
no row exists does the expression fall back to the snapshot price. -/
def buyPriceLookup (trades : List Trade) (addr : String) (fallback : ℚ) :
    Except Unit ℚ :=
  let cursor := queryLatestBuy trades addr
  match cursor with
  | [] => Except.ok fallback
  | _ :: rest =>
    match rest with
    | [] => Except.error ()
    | r :: _ => Except.ok r.price

/-- The exit evaluation, lines 192-203: take-profit at `buy_price * 10`,
stop-loss at `buy_price * 0.8`; price at or above take-profit sells 85%
of the entry amount, otherwise price at or below stop-loss sells 100% of
it; the `if/elif` makes the two branches mutually exclusive with
take-profit checked first.  Returns the sell amount, if any. -/
def exitCheck (buy_price trade_amount current_price : ℚ) : Option ℚ :=
  let take_profit_price := buy_price * 10
  let stop_loss_price := buy_price * (8/10)
  if current_price ≥ take_profit_price then
    some (trade_amount * (85/100))
  else if current_price ≤ stop_loss_price then
    some trade_amount
  else
    none

/-- Outcome of one iteration of the token loop: the trade log, the
commands submitted to the channel, and whether the iteration raised (in
which case the exception propagates to the cycle-level handler). -/
structure StepResult where
  trades : List Trade
  dispatches : List Dispatch
  raised : Bool
deriving DecidableEq, Repr

/-- The body of the per-token loop of `trading_strategy`
(lines 181-206), after the token has been scored.  If `score >= 85 and
status == 'Good'` it buys `min(balance * 0.05, 0.1)` with the hard-coded
`balance = 1.0` (lines 182-184) — no check for an existing open position
is made — then reconstructs the buy price (line 191, see
`buyPriceLookup`; an error there is the `TypeError` that aborts this
iteration) and evaluates the take-profit / stop-loss exits via
`exitCheck`, dispatching the corresponding sell. -/
def tokenStep (token : Token) (score : ℤ) (status : SnifferStatus)
    (trades0 : List Trade) (sendOk dbOk : Bool) (now : ℕ) : StepResult :=
  if score ≥ 85 ∧ status = SnifferStatus.Good then
    let balance : ℚ := 1
    let trade_amount := min (balance * (5/100)) (1/10)
    let buyRes := execute_trade trades0 token.token_address "buy" trade_amount sendOk dbOk now
    match buyPriceLookup buyRes.1 token.token_address token.price_usd with
    | Except.error _ => ⟨buyRes.1, buyRes.2, true⟩
    | Except.ok buy_price =>
      match exitCheck buy_price trade_amount token.price_usd with
      | some sell_amount =>
        let sellRes := execute_trade buyRes.1 token.token_address "sell" sell_amount sendOk dbOk now
        ⟨sellRes.1, buyRes.2 ++ sellRes.2, false⟩
      | none => ⟨buyRes.1, buyRes.2, false⟩
  else
    ⟨trades0, [], false⟩

/-- Outcome of one call to `trading_strategy`: the final trade log, all
commands submitted, the addresses whose per-token processing was
reached, and whether `update_db` (line 208) ran.  The `except` at
line 209 catches any exception, so the call itself always returns. -/
structure CycleResult where
  trades : List Trade
  dispatches : List Dispatch
  processed : List String
  dbWritten : Bool
deriving DecidableEq, Repr

/-- The `for token in filtered_tokens` loop (lines 176-206) together
with the surrounding single `try` (lines 172-210): each token is scored
by `check_solsniffer` and handed to `tokenStep`; the first raised
exception aborts the remaining iterations and skips the `update_db`
call, and is then caught (and only logged) at line 209. -/
def processTokens (oracle : String → Option SnifferResp) (sendOk dbOk : Bool)
    (now : ℕ) : List Token → List Trade → CycleResult
  | [], trades => ⟨trades, [], [], true⟩
  | token :: rest, trades =>
    let scored := check_solsniffer (oracle token.token_address)
    let r := tokenStep token scored.1 scored.2 trades sendOk dbOk now
    if r.raised then
      ⟨r.trades, r.dispatches, [token.token_address], false⟩
    else
      let res := processTokens oracle sendOk dbOk now rest r.trades
      ⟨res.trades, r.dispatches ++ res.dispatches,
        token.token_address :: res.processed, res.dbWritten⟩

/-- `trading_strategy` (lines 170-210): fetch, filter, then the token
loop.  `pairs` is the DexScreener response (`none` = request failed),
`oracle` gives each address's Solsniffer response (`none` = that call
failed). -/
def trading_strategy (config : Config) (pairs : Option (List RawPair))
    (oracle : String → Option SnifferResp) (sendOk dbOk : Bool) (now : ℕ)
    (trades0 : List Trade) : CycleResult :=
  let tokens := fetch_tokens_dexscreener pairs
  let filtered_tokens := apply_filters tokens config
  processTokens oracle sendOk dbOk now filtered_tokens trades0

/-- The external circumstances of one cycle: the market-data response,
the oracle responses, the send and insert outcomes, and the clock. -/
structure LoopEnv where
  pairs : Option (List RawPair)
  oracle : String → Option SnifferResp
  sendOk : Bool
  dbOk : Bool
  now : ℕ

/-- `run_trading_loop` (lines 234-239): `while True: trading_strategy(...)`,
threading the persistent trade log from cycle to cycle; `fuel` bounds
how many cycles we observe.  Because `trading_strategy` catches every
exception internally, every scheduled cycle executes. -/
def run_trading_loop (config : Config) (env : ℕ → LoopEnv)
    (trades0 : List Trade) : ℕ → List CycleResult
  | 0 => []
  | n + 1 =>
    let e := env 0
    let r := trading_strategy config e.pairs e.oracle e.sendOk e.dbOk e.now trades0
    r :: run_trading_loop config (fun i => env (i + 1)) r.trades n

/-- Python's `str.lower()` on the ASCII action strings the form submits. -/
def pyLower (s : String) : String :=
  String.mk (s.data.map Char.toLower)

/-- The `/trade` endpoint (lines 224-232): reads `token_address` and
`action` from the form and calls
`execute_trade(token_address, action.lower(), 0.1, config)` with no
check of the trade log whatsoever. -/
def trade_endpoint (trades : List Trade) (token_address action : String)
    (sendOk dbOk : Bool) (now : ℕ) : List Trade × List Dispatch :=
  execute_trade trades token_address (pyLower action) (1/10) sendOk dbOk now

/-- Modelled from the spec (section 3, Position): an Open position
exists for `addr` when the most recent trade recorded for `addr` in the
log is a Buy — i.e. a prior Buy with no intervening Sell.  The source
keeps no position table; this is the spec's derived notion, used only to
state the claims that mention open positions. -/
def hasOpenPosition (trades : List Trade) (addr : String) : Bool :=
  match (trades.filter fun t => t.token_address == addr).getLast? with
  | some t => t.trade_type == "buy"
  | none => false

/-- The filter predicate exactly as the claim states it: symbol not
blacklisted, volume and liquidity and price at least their minimums, and
price at most the configured maximum-price-change value used as an
absolute upper price bound. -/
def passesFilterSpec (config : Config) (t : Token) : Prop :=
  t.symbol ∉ config.coin_blacklist ∧
  t.volume_24h ≥ config.filters.min_volume_24h ∧
  t.liquidity_usd ≥ config.filters.min_liquidity_usd ∧
  t.price_usd ≥ config.filters.min_price_usd ∧
  t.price_usd ≤ config.filters.max_price_change_1h

instance (config : Config) (t : Token) : Decidable (passesFilterSpec config t) := by
  unfold passesFilterSpec
  infer_instance

/-! ### Concrete fixtures used by witnesses and counterexamples -/

def tokenA : Token := ⟨"A", "A", 1, 0, 0⟩

def tokenZ : Token := ⟨"Z", "Z", 0, 0, 0⟩

def tokenC8 : Token := ⟨"A", "A", 1/100, 10000, 5000⟩

def openTrades : List Trade := [⟨"A", "buy", 1/20, 0, 100⟩]

def cfgAll : Config := ⟨[], ⟨0, 0, 0, 1000000⟩⟩

def pairA : RawPair := ⟨"A", "A", 1, 0, 0, 0, 0⟩

def pairB : RawPair := ⟨"B", "B", 1, 0, 0, 0, 0⟩

def goodOracle : String → Option SnifferResp := fun _ => some ⟨90, false, false, false⟩

def cfgC9 : Config := ⟨[], ⟨10000, 5000, 1/10000, 500⟩⟩

def pairC9 (createdAt : ℤ) : RawPair := ⟨"A", "A", 1/100, 10000, 5000, 100, createdAt⟩

/-! ### Unfolding lemmas for the embedded operations -/

theorem execute_trade_dbOk (trades : List Trade) (a ty : String) (am : ℚ) (s : Bool) (n : ℕ) :
    execute_trade trades a ty am s true n =
      (trades ++ [⟨a, ty, am, 0, n⟩], [⟨a, ty, am⟩]) := by
  simp [execute_trade]

theorem execute_trade_dbFail (trades : List Trade) (a ty : String) (am : ℚ) (s : Bool) (n : ℕ) :
    execute_trade trades a ty am s false n = (trades, [⟨a, ty, am⟩]) := by
  simp [execute_trade]

theorem queryLatestBuy_append_buy (trades : List Trade) (a : String) (am p : ℚ) (n : ℕ) :
    queryLatestBuy (trades ++ [⟨a, "buy", am, p, n⟩]) a = [⟨a, "buy", am, p, n⟩] := by
  simp [queryLatestBuy, List.filter_append]

theorem buyPriceLookup_of_nonempty (trades : List Trade) (a : String) (fb : ℚ)
    (h : queryLatestBuy trades a ≠ []) : buyPriceLookup trades a fb = Except.error () := by
  unfold buyPriceLookup
  unfold queryLatestBuy at h ⊢
  cases hrev : (trades.filter fun t => t.token_address == a && t.trade_type == "buy").reverse with
  | nil => simp [hrev] at h
  | cons x xs => simp [hrev]

theorem buyPriceLookup_of_empty (trades : List Trade) (a : String) (fb : ℚ)
    (h : (trades.filter fun t => t.token_address == a && t.trade_type == "buy") = []) :
    buyPriceLookup trades a fb = Except.ok fb := by
  unfold buyPriceLookup queryLatestBuy
  simp [h]

theorem tokenStep_not_qual (token : Token) (score : ℤ) (status : SnifferStatus)
    (trades0 : List Trade) (sendOk dbOk : Bool) (now : ℕ)
    (h : ¬(score ≥ 85 ∧ status = SnifferStatus.Good)) :
    tokenStep token score status trades0 sendOk dbOk now = ⟨trades0, [], false⟩ := by
  simp [tokenStep, h]

theorem tokenStep_qual_dbOk (token : Token) (score : ℤ) (status : SnifferStatus)
    (trades0 : List Trade) (sendOk : Bool) (now : ℕ)
    (h : score ≥ 85 ∧ status = SnifferStatus.Good) :
    tokenStep token score status trades0 sendOk true now =
      ⟨trades0 ++ [⟨token.token_address, "buy", min (1 * (5/100)) (1/10), 0, now⟩],
       [⟨token.token_address, "buy", min (1 * (5/100)) (1/10)⟩], true⟩ := by
  have hb : buyPriceLookup
      (trades0 ++ [⟨token.token_address, "buy", min (1 * (5/100)) (1/10), 0, now⟩])
      token.token_address token.price_usd = Except.error () := by
    apply buyPriceLookup_of_nonempty
    rw [queryLatestBuy_append_buy]
    simp
  simp only [tokenStep, if_pos h, execute_trade_dbOk, hb]

theorem tokenStep_qual_dbFail_noPrior (token : Token) (score : ℤ) (status : SnifferStatus)
    (trades0 : List Trade) (sendOk : Bool) (now : ℕ)
    (h : score ≥ 85 ∧ status = SnifferStatus.Good)
    (hprior : (trades0.filter fun t =>
        t.token_address == token.token_address && t.trade_type == "buy") = []) :
    tokenStep token score status trades0 sendOk false now =
      match exitCheck token.price_usd (min (1 * (5/100)) (1/10)) token.price_usd with
      | some sell_amount => ⟨trades0, [⟨token.token_address, "buy", min (1 * (5/100)) (1/10)⟩,
                              ⟨token.token_address, "sell", sell_amount⟩], false⟩
      | none => ⟨trades0, [⟨token.token_address, "buy", min (1 * (5/100)) (1/10)⟩], false⟩ := by
  have hb : buyPriceLookup trades0 token.token_address token.price_usd =
      Except.ok token.price_usd := buyPriceLookup_of_empty _ _ _ hprior
  cases hexit : exitCheck token.price_usd (min (1 * (5/100)) (1/10)) token.price_usd with
  | none => simp only [tokenStep, if_pos h, execute_trade_dbFail, hb, hexit]
  | some sa =>
    simp only [tokenStep, if_pos h, execute_trade_dbFail, hb, hexit, List.singleton_append]

theorem exitCheck_tp (P amt c : ℚ) (h : c ≥ P * 10) :
    exitCheck P amt c = some (amt * (85/100)) := by
  simp only [exitCheck, if_pos h]

theorem exitCheck_sl (P amt c : ℚ) (h1 : ¬ c ≥ P * 10) (h2 : c ≤ P * (8/10)) :
    exitCheck P amt c = some amt := by
  simp only [exitCheck, if_neg h1, if_pos h2]

theorem exitCheck_mid (P amt c : ℚ) (h1 : ¬ c ≥ P * 10) (h2 : ¬ c ≤ P * (8/10)) :
    exitCheck P amt c = none := by
  simp only [exitCheck, if_neg h1, if_neg h2]

theorem tokenStep_qual_dispatches (token : Token) (score : ℤ) (status : SnifferStatus)
    (trades0 : List Trade) (sendOk dbOk : Bool) (now : ℕ)
    (h : score ≥ 85 ∧ status = SnifferStatus.Good) :
    (tokenStep token score status trades0 sendOk dbOk now).dispatches =
        [⟨token.token_address, "buy", min (1 * (5/100)) (1/10)⟩] ∨
      ∃ sa, (tokenStep token score status trades0 sendOk dbOk now).dispatches =
        [⟨token.token_address, "buy", min (1 * (5/100)) (1/10)⟩,
         ⟨token.token_address, "sell", sa⟩] := by
  unfold tokenStep
  rw [if_pos h]
  cases dbOk with
  | false =>
    simp only [execute_trade_dbFail]
    cases hlook : buyPriceLookup trades0 token.token_address token.price_usd with
    | error e => left; rfl
    | ok bp =>
      cases hexit : exitCheck bp (min (1 * (5/100)) (1/10)) token.price_usd with
      | none => left; simp only [hexit]
      | some sa =>
        right
        exact ⟨sa, by simp only [hexit, List.singleton_append]⟩
  | true =>
    simp only [execute_trade_dbOk]
    cases hlook : buyPriceLookup
        (trades0 ++ [⟨token.token_address, "buy", min (1 * (5/100)) (1/10), 0, now⟩])
        token.token_address token.price_usd with
    | error e => left; rfl
    | ok bp =>
      cases hexit : exitCheck bp (min (1 * (5/100)) (1/10)) token.price_usd with
      | none => left; simp only [hexit]
      | some sa =>
        right
        exact ⟨sa, by simp only [hexit, List.singleton_append]⟩

theorem processTokens_dbWritten_processed (oracle : String → Option SnifferResp)
    (sendOk dbOk : Bool) (now : ℕ) :
    ∀ (tokens : List Token) (trades : List Trade),
    (processTokens oracle sendOk dbOk now tokens trades).dbWritten = true →
    (processTokens oracle sendOk dbOk now tokens trades).processed =
      tokens.map Token.token_address := by
  intro tokens
  induction tokens with
  | nil => intro trades _; rfl
  | cons t rest ih =>
    intro trades h
    by_cases hr : (tokenStep t (check_solsniffer (oracle t.token_address)).1
        (check_solsniffer (oracle t.token_address)).2 trades sendOk dbOk now).raised = true
    · simp only [processTokens, if_pos hr] at h
      exact absurd h (by decide)
    · simp only [processTokens, if_neg hr] at h ⊢
      rw [List.map_cons]
      rw [ih _ h]

theorem run_trading_loop_length (config : Config) :
    ∀ (n : ℕ) (env : ℕ → LoopEnv) (trades0 : List Trade),
    (run_trading_loop config env trades0 n).length = n := by
  intro n
  induction n with
  | zero => intro env tr; rfl
  | succ m ih => intro env tr; simp only [run_trading_loop, List.length_cons, ih]

/-! ### The claims -/

/-- C1 (counterexample): an Open position for address `A` exists in the
log, the token is scored 90/Good, and the strategy still dispatches a
Buy — refuting the claim that a Buy is dispatched only when no Open
position exists. -/
theorem entry_rule_open_position_cex :
    hasOpenPosition openTrades "A" = true ∧
    (tokenStep tokenA 90 SnifferStatus.Good openTrades true true 200).dispatches.head? =
      some ⟨"A", "buy", min (1 * (5/100)) (1/10)⟩ := by
  refine ⟨by decide, ?_⟩
  rw [tokenStep_qual_dbOk tokenA 90 SnifferStatus.Good openTrades true 200 ⟨by norm_num, rfl⟩]
  rfl

/-- C1 (amended): per cycle and filtered token, a Buy is dispatched iff
`score >= 85 and status == 'Good'` — no open-position check is made —
and the dispatched amount is `min(balance * 0.05, 0.1)` with the
hard-coded `balance = 1.0` (lines 181-184). -/
theorem entry_rule_no_open_position_check (token : Token) (score : ℤ)
    (status : SnifferStatus) (trades0 : List Trade) (sendOk dbOk : Bool) (now : ℕ) :
    (¬(score ≥ 85 ∧ status = SnifferStatus.Good) →
      (tokenStep token score status trades0 sendOk dbOk now).dispatches = []) ∧
    ((score ≥ 85 ∧ status = SnifferStatus.Good) →
      (tokenStep token score status trades0 sendOk dbOk now).dispatches.head? =
        some ⟨token.token_address, "buy", min (1 * (5/100)) (1/10)⟩) := by
  constructor
  · intro h
    rw [tokenStep_not_qual token score status trades0 sendOk dbOk now h]
  · intro h
    rcases tokenStep_qual_dispatches token score status trades0 sendOk dbOk now h with
      h1 | ⟨sa, h2⟩
    · rw [h1]; rfl
    · rw [h2]; rfl

/-- C1 (witness): at score 90, status Good, empty log, the amended
entry rule yields the Buy dispatch. -/
theorem entry_rule_no_open_position_check_witness :
    (tokenStep tokenA 90 SnifferStatus.Good [] true true 0).dispatches.head? =
      some ⟨"A", "buy", min (1 * (5/100)) (1/10)⟩ :=
  (entry_rule_no_open_position_check tokenA 90 SnifferStatus.Good [] true true 0).2
    ⟨by norm_num, rfl⟩

/-- C2 (confirmed): with entry price `P` and entry amount `amt`, a
current price at or above `P * 10` sells `amt * 0.85`; otherwise a price
at or below `P * 0.8` sells `amt`; a price strictly between triggers
nothing.  The single `Option` result of `exitCheck` makes the two exits
mutually exclusive within a cycle, with take-profit checked first. -/
theorem take_profit_stop_loss_boundary (P amt c : ℚ) :
    (c ≥ P * 10 → exitCheck P amt c = some (amt * (85/100))) ∧
    (¬ c ≥ P * 10 → c ≤ P * (8/10) → exitCheck P amt c = some amt) ∧
    (P * (8/10) < c → c < P * 10 → exitCheck P amt c = none) :=
  ⟨exitCheck_tp P amt c,
   exitCheck_sl P amt c,
   fun h1 h2 => exitCheck_mid P amt c (by linarith) (by linarith)⟩

/-- C2 (witness): boundary cases at entry price 1: price exactly 10
takes profit, price exactly 0.8 stops loss, price 1 does neither. -/
theorem take_profit_stop_loss_boundary_witness :
    exitCheck 1 1 10 = some (1 * (85/100)) ∧
    exitCheck 1 1 (8/10) = some 1 ∧
    exitCheck 1 1 1 = none :=
  ⟨(take_profit_stop_loss_boundary 1 1 10).1 (by norm_num),
   (take_profit_stop_loss_boundary 1 1 (8/10)).2.1 (by norm_num) (by norm_num),
   (take_profit_stop_loss_boundary 1 1 1).2.2 (by norm_num) (by norm_num)⟩

/-- C3 (counterexample): with an empty trade log (so no prior Buy for
any address), a manual `/trade` request with action `Sell` dispatches a
Sell command — refuting the claim that a Sell is never dispatched
without a prior Buy in the log. -/
theorem manual_sell_without_prior_buy_cex :
    hasOpenPosition [] "A" = false ∧
    (trade_endpoint [] "A" "Sell" true true 0).2 = [⟨"A", "sell", 1/10⟩] := by
  refine ⟨by decide, ?_⟩
  have hl : pyLower "Sell" = "sell" := by decide
  show (execute_trade [] "A" (pyLower "Sell") (1/10) true true 0).2 = _
  rw [hl, execute_trade_dbOk]

/-- C3 (amended): within the strategy loop a Sell dispatch only ever
occurs in the same per-token step as, and after, a Buy dispatch for the
same address; the manual `/trade` endpoint performs no such check. -/
theorem loop_sell_preceded_by_buy (token : Token) (score : ℤ) (status : SnifferStatus)
    (trades0 : List Trade) (sendOk dbOk : Bool) (now : ℕ) :
    ∀ d ∈ (tokenStep token score status trades0 sendOk dbOk now).dispatches,
      d.trade_type = "sell" →
      (tokenStep token score status trades0 sendOk dbOk now).dispatches.head? =
        some ⟨token.token_address, "buy", min (1 * (5/100)) (1/10)⟩ := by
  intro d hd hsell
  by_cases h : score ≥ 85 ∧ status = SnifferStatus.Good
  · rcases tokenStep_qual_dispatches token score status trades0 sendOk dbOk now h with
      h1 | ⟨sa, h2⟩
    · rw [h1]; rfl
    · rw [h2]; rfl
  · rw [tokenStep_not_qual token score status trades0 sendOk dbOk now h] at hd
    simp at hd

/-- C3 (witness): a step that does dispatch a Sell (price 0, failed
insert) indeed begins with a Buy dispatch for the same address. -/
theorem loop_sell_preceded_by_buy_witness :
    (tokenStep tokenZ 90 SnifferStatus.Good [] true false 0).dispatches.head? =
      some ⟨"Z", "buy", min (1 * (5/100)) (1/10)⟩ := by
  have hstep : tokenStep tokenZ 90 SnifferStatus.Good [] true false 0 =
      ⟨[], [⟨"Z", "buy", min (1 * (5/100)) (1/10)⟩,
            ⟨"Z", "sell", (min (1 * (5/100)) (1/10)) * (85/100)⟩], false⟩ := by
    rw [tokenStep_qual_dbFail_noPrior tokenZ 90 SnifferStatus.Good [] true 0
      ⟨by norm_num, rfl⟩ rfl]
    rw [exitCheck_tp _ _ _ (by norm_num [tokenZ])]
    rfl
  exact loop_sell_preceded_by_buy tokenZ 90 SnifferStatus.Good [] true false 0
    ⟨"Z", "sell", (min (1 * (5/100)) (1/10)) * (85/100)⟩
    (by rw [hstep]; exact List.mem_cons_of_mem _ (List.mem_cons_self _ _)) rfl

/-- C4 (code bug): when the Telegram send fails
(`send_telegram_notification false`), `execute_trade` still appends the
Trade record, because the notification helper catches the exception
itself (lines 149-150) and returns normally, so the insert at
lines 159-165 is reached regardless. -/
theorem send_failure_still_records_trade (trades : List Trade) (addr ty : String)
    (am : ℚ) (now : ℕ) :
    send_telegram_notification false = false ∧
    (execute_trade trades addr ty am false true now).1 =
      trades ++ [⟨addr, ty, am, 0, now⟩] :=
  ⟨rfl, by rw [execute_trade_dbOk]⟩

/-- C5 (counterexample): two Good tokens, all sends and inserts
succeeding; the first token's step raises (the entry-price lookup
`TypeError`), and the cycle processes only `"A"`, never scores `"B"`,
and skips `update_db` — refuting per-token error containment. -/
theorem cycle_error_scope_cex :
    (trading_strategy cfgAll (some [pairA, pairB]) goodOracle true true 0 []).processed =
      ["A"] ∧
    (trading_strategy cfgAll (some [pairA, pairB]) goodOracle true true 0 []).dbWritten =
      false ∧
    (apply_filters (fetch_tokens_dexscreener (some [pairA, pairB])) cfgAll).length = 2 := by
  have hfil : apply_filters (fetch_tokens_dexscreener (some [pairA, pairB])) cfgAll =
      [parsePair pairA, parsePair pairB] := by
    norm_num [apply_filters, fetch_tokens_dexscreener, parsePair, pairA, pairB, cfgAll,
      List.filter_cons]
  have hstepA := tokenStep_qual_dbOk (parsePair pairA)
    (check_solsniffer (goodOracle (parsePair pairA).token_address)).1
    (check_solsniffer (goodOracle (parsePair pairA).token_address)).2
    [] true 0 ⟨by decide, by decide⟩
  have hproc : trading_strategy cfgAll (some [pairA, pairB]) goodOracle true true 0 [] =
      ⟨[⟨(parsePair pairA).token_address, "buy", min (1 * (5/100)) (1/10), 0, 0⟩],
       [⟨(parsePair pairA).token_address, "buy", min (1 * (5/100)) (1/10)⟩], ["A"], false⟩ := by
    show processTokens goodOracle true true 0
      (apply_filters (fetch_tokens_dexscreener (some [pairA, pairB])) cfgAll) [] = _
    rw [hfil]
    simp only [processTokens, hstepA, if_pos]
    rfl
  refine ⟨?_, ?_, ?_⟩
  · rw [hproc]
  · rw [hproc]
  · rw [hfil]; rfl

/-- C5 (amended): an error in one token's processing aborts the
remaining tokens of that cycle and skips that cycle's snapshot
persistence (the snapshot set is written only when every filtered token
was processed without error); the error is caught at cycle granularity,
so the loop itself always continues to the next cycle. -/
theorem cycle_error_scope (config : Config) (pairs : Option (List RawPair))
    (oracle : String → Option SnifferResp) (sendOk dbOk : Bool) (now : ℕ)
    (trades0 : List Trade) :
    ((trading_strategy config pairs oracle sendOk dbOk now trades0).dbWritten = true →
      (trading_strategy config pairs oracle sendOk dbOk now trades0).processed =
        (apply_filters (fetch_tokens_dexscreener pairs) config).map Token.token_address) ∧
    ∀ (env : ℕ → LoopEnv) (n : ℕ),
      (run_trading_loop config env trades0 n).length = n :=
  ⟨fun h => processTokens_dbWritten_processed oracle sendOk dbOk now _ _ h,
   fun env n => run_trading_loop_length config n env trades0⟩

/-- C5 (witness): a cycle whose only token is scored Unknown (oracle
failure) raises nowhere: the snapshot write happens and the processed
list covers the whole filtered set; and a two-cycle loop runs twice. -/
theorem cycle_error_scope_witness :
    (trading_strategy cfgAll (some [pairA]) (fun _ => none) true true 0 []).processed =
      (apply_filters (fetch_tokens_dexscreener (some [pairA])) cfgAll).map
        Token.token_address ∧
    (run_trading_loop cfgAll (fun _ => ⟨some [pairA], fun _ => none, true, true, 0⟩) [] 2).length = 2 := by
  constructor
  · apply (cycle_error_scope cfgAll (some [pairA]) (fun _ => none) true true 0 []).1
    have hfil : apply_filters (fetch_tokens_dexscreener (some [pairA])) cfgAll =
        [parsePair pairA] := by
      norm_num [apply_filters, fetch_tokens_dexscreener, parsePair, pairA, cfgAll,
        List.filter_cons]
    show (processTokens (fun _ => none) true true 0
      (apply_filters (fetch_tokens_dexscreener (some [pairA])) cfgAll) []).dbWritten = true
    rw [hfil]
    rw [processTokens]
    rw [tokenStep_not_qual _ _ _ _ _ _ _ (by decide)]
    rfl
  · exact (cycle_error_scope cfgAll (some [pairA]) (fun _ => none) true true 0 []).2 _ 2

/-- C6 (confirmed): `apply_filters` returns exactly the subsequence of
its input satisfying the five claim conditions, in input order; it is a
pure function of its two arguments (it is a Lean function). -/
theorem filter_engine_exact (tokens : List Token) (config : Config) :
    apply_filters tokens config =
      tokens.filter (fun t => decide (passesFilterSpec config t)) ∧
    (apply_filters tokens config).Sublist tokens := by
  constructor
  · apply List.filter_congr
    intro t _
    simp only [passesFilterSpec, Bool.decide_and, Bool.and_assoc]
  · exact List.filter_sublist _

/-- C7 (confirmed): the risk scorer returns `(0, Unknown)` on any
transport/parse failure (and, being a total function, never raises);
on a parsed body it passes the score through, returns `Good` exactly
when the score is at least 85 and no red flag is set, and otherwise
returns `Bad`. -/
theorem solsniffer_status_rule :
    check_solsniffer none = (0, SnifferStatus.Unknown) ∧
    ∀ r : SnifferResp,
      (check_solsniffer (some r)).1 = r.score ∧
      ((check_solsniffer (some r)).2 = SnifferStatus.Good ↔
        (r.score ≥ 85 ∧ r.fake_volume = false ∧ r.rugger = false ∧ r.cabal = false)) ∧
      ((check_solsniffer (some r)).2 = SnifferStatus.Good ∨
        (check_solsniffer (some r)).2 = SnifferStatus.Bad) := by
  refine ⟨rfl, fun r => ⟨rfl, ?_, ?_⟩⟩
  · show (if r.score ≥ 85 ∧ (r.fake_volume || r.rugger || r.cabal) = false
        then SnifferStatus.Good else SnifferStatus.Bad) = SnifferStatus.Good ↔ _
    split_ifs with h
    · simp only [Bool.or_eq_false_iff, and_assoc] at h
      exact iff_of_true rfl h
    · apply iff_of_false
      · intro hbad
        exact absurd hbad (by decide)
      · intro hc
        exact h ⟨hc.1, by rw [hc.2.1, hc.2.2.1, hc.2.2.2]; rfl⟩
  · show (if r.score ≥ 85 ∧ (r.fake_volume || r.rugger || r.cabal) = false
        then SnifferStatus.Good else SnifferStatus.Bad) = SnifferStatus.Good ∨
      (if r.score ≥ 85 ∧ (r.fake_volume || r.rugger || r.cabal) = false
        then SnifferStatus.Good else SnifferStatus.Bad) = SnifferStatus.Bad
    split_ifs with h
    · left; rfl
    · right; rfl

/-- C8 (code bug): for a qualifying token at snapshot price 1/100, the
Buy row is recorded with price 0 (not the dispatch-time price), and the
entry-price reconstruction then raises (the double `fetchone` of
line 191), so the strategy never computes take-profit or stop-loss from
the recorded entry: the step ends with `raised = true`. -/
theorem entry_price_reconstruction_bug :
    (tokenStep tokenC8 90 SnifferStatus.Good [] true true 9).raised = true ∧
    (tokenStep tokenC8 90 SnifferStatus.Good [] true true 9).trades =
      [⟨"A", "buy", min (1 * (5/100)) (1/10), 0, 9⟩] ∧
    tokenC8.price_usd ≠ 0 := by
  have h := tokenStep_qual_dbOk tokenC8 90 SnifferStatus.Good [] true 9 ⟨by norm_num, rfl⟩
  refine ⟨by rw [h], by rw [h]; rfl, by norm_num [tokenC8]⟩

/-- C9 (counterexample): the scenario's candidate passes the filter
with `createdAt` 48 hours before the reference time, and also passes
with `createdAt` 1 hour before it — refuting the claim that the young
candidate is filtered out (the pipeline has no token-age rule at all;
`createdAt` is not even parsed). -/
theorem age_filter_cex :
    apply_filters (fetch_tokens_dexscreener (some [pairC9 (1700000000 - 172800)])) cfgC9 =
      [parsePair (pairC9 (1700000000 - 172800))] ∧
    apply_filters (fetch_tokens_dexscreener (some [pairC9 (1700000000 - 3600)])) cfgC9 ≠
      [] := by
  constructor
  · norm_num [apply_filters, fetch_tokens_dexscreener, parsePair, pairC9, cfgC9,
      List.filter_cons]
  · norm_num [apply_filters, fetch_tokens_dexscreener, parsePair, pairC9, cfgC9,
      List.filter_cons]

/-- C9 (amended): the scenario's candidate passes the filter for every
`createdAt` value: token age never influences `apply_filters`, whose
rules are only the symbol/volume/liquidity/price bounds. -/
theorem age_never_filters (createdAt : ℤ) :
    apply_filters (fetch_tokens_dexscreener (some [pairC9 createdAt])) cfgC9 =
      [parsePair (pairC9 createdAt)] := by
  norm_num [apply_filters, fetch_tokens_dexscreener, parsePair, pairC9, cfgC9,
    List.filter_cons]

/-- C10 (code bug): immediately after a Buy row for `addr` has been
inserted, the entry-price lookup of line 191 always raises: the
conditional's first `fetchone` consumes the single `LIMIT 1` row, the
second returns `None`, and `None[0]` is a `TypeError` — the opposite of
the claim that the lookup always obtains a row and completes without
raising. -/
theorem buy_lookup_always_raises (trades : List Trade) (addr : String)
    (fb am p : ℚ) (now : ℕ) :
    buyPriceLookup (trades ++ [⟨addr, "buy", am, p, now⟩]) addr fb =
      Except.error () := by
  apply buyPriceLookup_of_nonempty
  rw [queryLatestBuy_append_buy]
  simp
